import Mathlib

/-!
# Verification of the radar-interface simulator core

Shallow embedding of the radar subsystem of `Simulation-For-Test`
(`src/PythonProgram/radar/radar_core.py` and
`src/PythonProgram/radar/radar_simulation.py`), together with theorems
settling the specification's claims about it.

Modelling conventions:
* A Python `bytes` value is a `List Nat` whose entries are below 256.
* The codec (`DataFrameCodec`) never computes with the numeric values of
  the 64-bit floating-point fields — it only serialises their bit
  patterns via `struct.pack('>d', ·)` / `struct.unpack('>d', ·)`, which
  are mutually inverse at the byte level in CPython.  Each float field is
  therefore modelled as its 64-bit pattern, a `Nat` below `2 ^ 64`.
* The tracker (`radar_simulation.py`) computes with float values; its
  arithmetic is modelled exactly over `ℚ`.
* Python's `x % m` on floats with `m > 0` is modelled by `fmod` below
  (result in `[0, m)`), matching Python's sign-of-divisor semantics.
-/

namespace RadarCore

/-- Python `x % m` for a positive modulus: `x - m * ⌊x / m⌋`, in `[0, m)`. -/
def fmod (x m : ℚ) : ℚ := x - m * ⌊x / m⌋

/-- `struct.pack('B', n)`: one byte.  (For byte-valued `n` the `% 256`
is the identity; Python would raise for larger values, which the
well-formedness hypotheses of the theorems exclude.) -/
def pack_u8 (n : Nat) : List Nat := [n % 256]

/-- `struct.pack('>H', n)`: two bytes, most significant first. -/
def pack_u16 (n : Nat) : List Nat := [n / 256 % 256, n % 256]

/-- `struct.pack('>d', x)`: the eight bytes of the 64-bit pattern `n`,
most significant first. -/
def pack_f64 (n : Nat) : List Nat :=
  [n / 2 ^ 56 % 256, n / 2 ^ 48 % 256, n / 2 ^ 40 % 256, n / 2 ^ 32 % 256,
   n / 2 ^ 24 % 256, n / 2 ^ 16 % 256, n / 2 ^ 8 % 256, n % 256]

/-- `struct.unpack('>H', ·)`. -/
def u16 (b0 b1 : Nat) : Nat := b0 * 256 + b1

/-- `struct.unpack('>d', ·)` at the bit-pattern level. -/
def u64 (b0 b1 b2 b3 b4 b5 b6 b7 : Nat) : Nat :=
  b0 * 2 ^ 56 + b1 * 2 ^ 48 + b2 * 2 ^ 40 + b3 * 2 ^ 32 +
  b4 * 2 ^ 24 + b5 * 2 ^ 16 + b6 * 2 ^ 8 + b7

/-- `ImageTarget` of `radar_core.py`; the seven float fields are 64-bit
patterns. -/
structure ImageTarget where
  id : Nat
  type : Nat
  distance_m : Nat
  azimuth_deg : Nat
  frequency_hz : Nat
  distance_30ms_m : Nat
  azimuth_30ms_deg : Nat
  speed_m_s : Nat
  direction_deg : Nat
deriving DecidableEq, Repr

/-- `RadarTarget` of `radar_core.py`; the four float fields are 64-bit
patterns. -/
structure RadarTarget where
  id : Nat
  distance_m : Nat
  azimuth_deg : Nat
  rcs_db : Nat
  velocity_m_s : Nat
deriving DecidableEq, Repr

/-- `DataFrame` of `radar_core.py`. -/
structure DataFrame where
  header : Nat := 0xAA55
  target : Nat := 0
  length : Nat := 0
  image_target_num : Nat := 0
  image_targets : List ImageTarget := []
  radar_target_num : Nat := 0
  radar_targets : List RadarTarget := []
  requested_target_num : Nat := 0
  requested_target_ids : List Nat := []
deriving DecidableEq, Repr

/-- Byte length `encode_frame` computes:
`7 + image_target_num * 58 + radar_target_num * 34 + requested_target_num`. -/
def expected_len (f : DataFrame) : Nat :=
  7 + f.image_target_num * 58 + f.radar_target_num * 34 + f.requested_target_num

/-- The 58-byte image-target record written by `encode_frame`. -/
def encode_image_target (t : ImageTarget) : List Nat :=
  pack_u8 t.id ++ pack_u8 t.type ++
  pack_f64 t.distance_m ++ pack_f64 t.azimuth_deg ++ pack_f64 t.frequency_hz ++
  pack_f64 t.distance_30ms_m ++ pack_f64 t.azimuth_30ms_deg ++
  pack_f64 t.speed_m_s ++ pack_f64 t.direction_deg

/-- The 34-byte radar-target record written by `encode_frame` (second
byte is the reserved zero byte). -/
def encode_radar_target (t : RadarTarget) : List Nat :=
  pack_u8 t.id ++ pack_u8 0 ++
  pack_f64 t.distance_m ++ pack_f64 t.azimuth_deg ++
  pack_f64 t.rcs_db ++ pack_f64 t.velocity_m_s

/-- `DataFrameCodec.encode_frame`.  The Python method first assigns
`frame.length = min(expected_len, 255)` (mutating its argument) and then
serialises; the mutation is made explicit by returning the updated frame
alongside the byte stream. -/
def encode_frame (f : DataFrame) : DataFrame × List Nat :=
  let len := min (expected_len f) 255
  ({ f with length := len },
   pack_u16 f.header ++ pack_u8 f.target ++ pack_u8 len ++
   pack_u8 f.image_target_num ++ (f.image_targets.map encode_image_target).flatten ++
   pack_u8 f.radar_target_num ++ (f.radar_targets.map encode_radar_target).flatten ++
   pack_u8 f.requested_target_num ++ f.requested_target_ids.map (· % 256))

/-- Read eight bytes as a big-endian 64-bit pattern
(`struct.unpack('>d', data[offset:offset+8])`). -/
def read_f64 : List Nat → Option (Nat × List Nat)
  | b0 :: b1 :: b2 :: b3 :: b4 :: b5 :: b6 :: b7 :: rest =>
    some (u64 b0 b1 b2 b3 b4 b5 b6 b7, rest)
  | _ => none

/-- One image-target record of `decode_frame`.  `none` exactly when
fewer than 58 bytes remain (the `offset + 58 > len(data)` check). -/
def parse_image_record (bs : List Nat) : Option (ImageTarget × List Nat) :=
  match bs with
  | tid :: tty :: r0 =>
    match read_f64 r0 with
    | none => none
    | some (d, r1) =>
      match read_f64 r1 with
      | none => none
      | some (az, r2) =>
        match read_f64 r2 with
        | none => none
        | some (fr, r3) =>
          match read_f64 r3 with
          | none => none
          | some (d30, r4) =>
            match read_f64 r4 with
            | none => none
            | some (az30, r5) =>
              match read_f64 r5 with
              | none => none
              | some (sp, r6) =>
                match read_f64 r6 with
                | none => none
                | some (dir, r7) =>
                  some (⟨tid, tty, d, az, fr, d30, az30, sp, dir⟩, r7)
  | _ => none

/-- One radar-target record of `decode_frame`.  The second byte is the
reserved byte whose value is discarded. -/
def parse_radar_record (bs : List Nat) : Option (RadarTarget × List Nat) :=
  match bs with
  | tid :: _ :: r0 =>
    match read_f64 r0 with
    | none => none
    | some (d, r1) =>
      match read_f64 r1 with
      | none => none
      | some (az, r2) =>
        match read_f64 r2 with
        | none => none
        | some (rcs, r3) =>
          match read_f64 r3 with
          | none => none
          | some (vel, r4) => some (⟨tid, d, az, rcs, vel⟩, r4)
  | _ => none

/-- The image-target loop of `decode_frame`: up to `n` records, breaking
(without consuming) as soon as fewer than 58 bytes remain. -/
def parse_image_targets : Nat → List Nat → List ImageTarget × List Nat
  | 0, bs => ([], bs)
  | n + 1, bs =>
    match parse_image_record bs with
    | none => ([], bs)
    | some (t, rest) =>
      let (ts, bs') := parse_image_targets n rest
      (t :: ts, bs')

/-- The radar-target loop of `decode_frame`: up to `n` records, breaking
as soon as fewer than 34 bytes remain. -/
def parse_radar_targets : Nat → List Nat → List RadarTarget × List Nat
  | 0, bs => ([], bs)
  | n + 1, bs =>
    match parse_radar_record bs with
    | none => ([], bs)
    | some (t, rest) =>
      let (ts, bs') := parse_radar_targets n rest
      (t :: ts, bs')

/-- The fire-control-request loop of `decode_frame`: up to `n` single
bytes, breaking at the end of the buffer. -/
def parse_request_ids (n : Nat) (bs : List Nat) : List Nat := bs.take n

/-- The body of `decode_frame` from offset 4 on: each section is parsed
only if at least one byte (its count) remains; counts are recorded as
read even when the following records are truncated. -/
def decode_body (header target length : Nat) (rest : List Nat) : DataFrame :=
  match rest with
  | [] => ⟨header, target, length, 0, [], 0, [], 0, []⟩
  | n_i :: r1 =>
    let (imgs, r2) := parse_image_targets n_i r1
    match r2 with
    | [] => ⟨header, target, length, n_i, imgs, 0, [], 0, []⟩
    | n_r :: r3 =>
      let (rads, r4) := parse_radar_targets n_r r3
      match r4 with
      | [] => ⟨header, target, length, n_i, imgs, n_r, rads, 0, []⟩
      | n_q :: r5 =>
        ⟨header, target, length, n_i, imgs, n_r, rads, n_q, parse_request_ids n_q r5⟩

/-- `DataFrameCodec.decode_frame`: `none` for input shorter than 4 bytes
or with a header other than `0xAA55`; otherwise the defensively parsed
frame (truncated sections are cut short, never an error). -/
def decode_frame (data : List Nat) : Option DataFrame :=
  match data with
  | b0 :: b1 :: b2 :: b3 :: rest =>
    if u16 b0 b1 = 0xAA55 then some (decode_body (u16 b0 b1) b2 b3 rest) else none
  | _ => none

/-- Field bounds under which an `ImageTarget` is representable on the
wire: byte-valued id/type and 64-bit float patterns. -/
def ImageTargetWF (t : ImageTarget) : Prop :=
  t.id < 256 ∧ t.type < 256 ∧ t.distance_m < 2 ^ 64 ∧ t.azimuth_deg < 2 ^ 64 ∧
  t.frequency_hz < 2 ^ 64 ∧ t.distance_30ms_m < 2 ^ 64 ∧
  t.azimuth_30ms_deg < 2 ^ 64 ∧ t.speed_m_s < 2 ^ 64 ∧ t.direction_deg < 2 ^ 64

/-- Field bounds for a wire-representable `RadarTarget`. -/
def RadarTargetWF (t : RadarTarget) : Prop :=
  t.id < 256 ∧ t.distance_m < 2 ^ 64 ∧ t.azimuth_deg < 2 ^ 64 ∧
  t.rcs_db < 2 ^ 64 ∧ t.velocity_m_s < 2 ^ 64

/-- A well-formed frame: constant header, byte-valued stream id, each
count equal to its list's length and below 256, wire-representable
entries, byte-valued request ids. -/
def FrameWF (f : DataFrame) : Prop :=
  f.header = 0xAA55 ∧ f.target < 256 ∧
  f.image_target_num = f.image_targets.length ∧ f.image_target_num < 256 ∧
  (∀ t ∈ f.image_targets, ImageTargetWF t) ∧
  f.radar_target_num = f.radar_targets.length ∧ f.radar_target_num < 256 ∧
  (∀ t ∈ f.radar_targets, RadarTargetWF t) ∧
  f.requested_target_num = f.requested_target_ids.length ∧
  f.requested_target_num < 256 ∧
  (∀ i ∈ f.requested_target_ids, i < 256)

instance (t : ImageTarget) : Decidable (ImageTargetWF t) := by
  unfold ImageTargetWF; infer_instance

instance (t : RadarTarget) : Decidable (RadarTargetWF t) := by
  unfold RadarTargetWF; infer_instance

instance (f : DataFrame) : Decidable (FrameWF f) := by
  unfold FrameWF; infer_instance

lemma read_f64_pack (n : Nat) (h : n < 2 ^ 64) (tail : List Nat) :
    read_f64 (pack_f64 n ++ tail) = some (n, tail) := by
  simp only [pack_f64, List.cons_append, List.nil_append, read_f64, u64,
    Option.some.injEq, Prod.mk.injEq, and_true]
  omega

lemma parse_image_record_encode (t : ImageTarget) (h : ImageTargetWF t)
    (tail : List Nat) :
    parse_image_record (encode_image_target t ++ tail) = some (t, tail) := by
  obtain ⟨h1, h2, h3, h4, h5, h6, h7, h8, h9⟩ := h
  simp only [encode_image_target, pack_u8, List.append_assoc, List.cons_append,
    List.nil_append, parse_image_record, read_f64_pack _ h3, read_f64_pack _ h4,
    read_f64_pack _ h5, read_f64_pack _ h6, read_f64_pack _ h7,
    read_f64_pack _ h8, read_f64_pack _ h9, Option.some.injEq, Prod.mk.injEq,
    and_true]
  have : t.id % 256 = t.id := Nat.mod_eq_of_lt h1
  have : t.type % 256 = t.type := Nat.mod_eq_of_lt h2
  cases t
  simp_all

lemma parse_radar_record_encode (t : RadarTarget) (h : RadarTargetWF t)
    (tail : List Nat) :
    parse_radar_record (encode_radar_target t ++ tail) = some (t, tail) := by
  obtain ⟨h1, h2, h3, h4, h5⟩ := h
  simp only [encode_radar_target, pack_u8, List.append_assoc, List.cons_append,
    List.nil_append, parse_radar_record, read_f64_pack _ h2, read_f64_pack _ h3,
    read_f64_pack _ h4, read_f64_pack _ h5, Option.some.injEq, Prod.mk.injEq,
    and_true]
  have : t.id % 256 = t.id := Nat.mod_eq_of_lt h1
  cases t
  simp_all

lemma parse_image_targets_encode (l : List ImageTarget)
    (h : ∀ t ∈ l, ImageTargetWF t) (tail : List Nat) :
    parse_image_targets l.length ((l.map encode_image_target).flatten ++ tail) =
      (l, tail) := by
  induction l with
  | nil => simp [parse_image_targets]
  | cons t l ih =>
    have ht : ImageTargetWF t := h t (List.mem_cons_self t l)
    have hl : ∀ u ∈ l, ImageTargetWF u := fun u hu => h u (List.mem_cons_of_mem t hu)
    simp only [List.length_cons, List.map_cons, List.flatten_cons, List.append_assoc,
      parse_image_targets, parse_image_record_encode t ht, ih hl]

lemma parse_radar_targets_encode (l : List RadarTarget)
    (h : ∀ t ∈ l, RadarTargetWF t) (tail : List Nat) :
    parse_radar_targets l.length ((l.map encode_radar_target).flatten ++ tail) =
      (l, tail) := by
  induction l with
  | nil => simp [parse_radar_targets]
  | cons t l ih =>
    have ht : RadarTargetWF t := h t (List.mem_cons_self t l)
    have hl : ∀ u ∈ l, RadarTargetWF u := fun u hu => h u (List.mem_cons_of_mem t hu)
    simp only [List.length_cons, List.map_cons, List.flatten_cons, List.append_assoc,
      parse_radar_targets, parse_radar_record_encode t ht, ih hl]

lemma map_mod_256_eq (l : List Nat) (h : ∀ i ∈ l, i < 256) :
    l.map (· % 256) = l := by
  induction l with
  | nil => rfl
  | cons a l ih =>
    have ha : a % 256 = a := Nat.mod_eq_of_lt (h a (List.mem_cons_self a l))
    simp only [List.map_cons, ha, ih fun i hi => h i (List.mem_cons_of_mem a hi)]

lemma decode_frame_cons (b0 b1 b2 b3 : Nat) (rest : List Nat)
    (h : u16 b0 b1 = 0xAA55) :
    decode_frame (b0 :: b1 :: b2 :: b3 :: rest) =
      some (decode_body 0xAA55 b2 b3 rest) := by
  simp [decode_frame, h]

/-- C3 — For every well-formed `DataFrame` whose encoded byte length fits
in one byte, `decode_frame (encode_frame f)` returns a frame reproducing
every field of `f` exactly (the float fields, modelled as 64-bit
patterns, bit-identically); the `length` field carries the value
`encode_frame` itself assigned to `f` before serialising. -/
theorem decode_encode_roundtrip (f : DataFrame) (h : FrameWF f)
    (hlen : expected_len f ≤ 255) :
    decode_frame (encode_frame f).2 = some ((encode_frame f).1) ∧
    (encode_frame f).1 = { f with length := expected_len f } := by
  obtain ⟨hh, ht, hni, hni256, himg, hnr, hnr256, hrad, hnq, hnq256, hids⟩ := h
  have hmin : min (expected_len f) 255 = expected_len f := Nat.min_eq_left hlen
  have htm : f.target % 256 = f.target := Nat.mod_eq_of_lt ht
  have hlm : expected_len f % 256 = expected_len f := Nat.mod_eq_of_lt (by omega)
  have hnim : f.image_target_num % 256 = f.image_target_num := Nat.mod_eq_of_lt hni256
  have hnrm : f.radar_target_num % 256 = f.radar_target_num := Nat.mod_eq_of_lt hnr256
  have hnqm : f.requested_target_num % 256 = f.requested_target_num :=
    Nat.mod_eq_of_lt hnq256
  refine ⟨?_, ?_⟩
  · show decode_frame
      (pack_u16 f.header ++ pack_u8 f.target ++ pack_u8 (min (expected_len f) 255) ++
       pack_u8 f.image_target_num ++ (f.image_targets.map encode_image_target).flatten ++
       pack_u8 f.radar_target_num ++ (f.radar_targets.map encode_radar_target).flatten ++
       pack_u8 f.requested_target_num ++ f.requested_target_ids.map (· % 256)) = _
    rw [hmin, hh]
    simp only [pack_u16, pack_u8, htm, hlm, hnim, hnrm, hnqm, List.cons_append,
      List.nil_append]
    rw [decode_frame_cons _ _ _ _ _ (by norm_num [u16])]
    simp only [decode_body, List.append_assoc, List.cons_append, List.nil_append,
      hni, parse_image_targets_encode _ himg, hnr,
      parse_radar_targets_encode _ hrad, parse_request_ids,
      map_mod_256_eq _ hids]
    rw [hnq, List.take_length]
    simp [encode_frame, hmin, hh, hni, hnr, hnq]
  · simp [encode_frame, hmin]

/-- C3 witness: the round trip evaluated on a concrete two-target frame. -/
theorem decode_encode_roundtrip_witness :
    decode_frame (encode_frame ⟨0xAA55, 3, 99, 1,
        [⟨101, 1, 2 ^ 62 + 1, 5, 0, 7, 8, 9, 10⟩], 1,
        [⟨201, 11, 12, 13, 14⟩], 2, [101, 201]⟩).2 =
      some ((encode_frame ⟨0xAA55, 3, 99, 1,
        [⟨101, 1, 2 ^ 62 + 1, 5, 0, 7, 8, 9, 10⟩], 1,
        [⟨201, 11, 12, 13, 14⟩], 2, [101, 201]⟩).1) ∧
    (encode_frame ⟨0xAA55, 3, 99, 1,
        [⟨101, 1, 2 ^ 62 + 1, 5, 0, 7, 8, 9, 10⟩], 1,
        [⟨201, 11, 12, 13, 14⟩], 2, [101, 201]⟩).1 =
      { header := 0xAA55, target := 3, length := 101, image_target_num := 1,
        image_targets := [⟨101, 1, 2 ^ 62 + 1, 5, 0, 7, 8, 9, 10⟩],
        radar_target_num := 1, radar_targets := [⟨201, 11, 12, 13, 14⟩],
        requested_target_num := 2, requested_target_ids := [101, 201] } :=
  decode_encode_roundtrip _ (by decide) (by decide)

lemma encode_image_target_length (t : ImageTarget) :
    (encode_image_target t).length = 58 := rfl

lemma encode_radar_target_length (t : RadarTarget) :
    (encode_radar_target t).length = 34 := rfl

lemma flatten_encode_image_length (l : List ImageTarget) :
    ((l.map encode_image_target).flatten).length = l.length * 58 := by
  induction l with
  | nil => rfl
  | cons t l ih =>
    simp [List.flatten_cons, encode_image_target_length, ih]
    ring

lemma flatten_encode_radar_length (l : List RadarTarget) :
    ((l.map encode_radar_target).flatten).length = l.length * 34 := by
  induction l with
  | nil => rfl
  | cons t l ih =>
    simp [List.flatten_cons, encode_radar_target_length, ih]
    ring

lemma encode_frame_byte_length (f : DataFrame)
    (h1 : f.image_target_num = f.image_targets.length)
    (h2 : f.radar_target_num = f.radar_targets.length)
    (h3 : f.requested_target_num = f.requested_target_ids.length) :
    (encode_frame f).2.length = expected_len f := by
  simp only [encode_frame, pack_u16, pack_u8, List.length_append,
    List.length_cons, List.length_nil, List.length_map,
    flatten_encode_image_length, flatten_encode_radar_length,
    expected_len, h1, h2, h3]
  ring

/-- C4 counterexample: for the empty frame the length byte is 7 (the
whole frame's byte count) while only 3 bytes follow the length byte. -/
theorem encode_length_field_cx :
    (encode_frame ⟨0xAA55, 0, 0, 0, [], 0, [], 0, []⟩).1.length = 7 ∧
    (encode_frame ⟨0xAA55, 0, 0, 0, [], 0, [], 0, []⟩).2.getD 3 0 = 7 ∧
    ((encode_frame ⟨0xAA55, 0, 0, 0, [], 0, [], 0, []⟩).2.drop 4).length = 3 ∧
    (7 : Nat) ≠ 3 := by decide

/-- C4 (amended) — the one-byte length field holds the byte count of the
*entire* encoded frame (header and length byte included), i.e.
`7 + 58·imageCount + 34·radarCount + requestCount`, capped at 255 when
that count exceeds a single unsigned byte; it is 4 more than the byte
count of what follows the length byte. -/
theorem encode_length_field_total (f : DataFrame)
    (h1 : f.image_target_num = f.image_targets.length)
    (h2 : f.radar_target_num = f.radar_targets.length)
    (h3 : f.requested_target_num = f.requested_target_ids.length) :
    (encode_frame f).1.length = min ((encode_frame f).2.length) 255 ∧
    (encode_frame f).2.getD 3 0 = min ((encode_frame f).2.length) 255 ∧
    (encode_frame f).2.length = ((encode_frame f).2.drop 4).length + 4 := by
  have hL := encode_frame_byte_length f h1 h2 h3
  have hmod : min (expected_len f) 255 % 256 = min (expected_len f) 255 :=
    Nat.mod_eq_of_lt (by have := Nat.min_le_right (expected_len f) 255; omega)
  refine ⟨by rw [hL]; rfl, ?_, ?_⟩
  · rw [hL]
    show (pack_u16 f.header ++ pack_u8 f.target ++ pack_u8 (min (expected_len f) 255) ++
      pack_u8 f.image_target_num ++ (f.image_targets.map encode_image_target).flatten ++
      pack_u8 f.radar_target_num ++ (f.radar_targets.map encode_radar_target).flatten ++
      pack_u8 f.requested_target_num ++
      f.requested_target_ids.map (· % 256)).getD 3 0 = _
    simp only [pack_u16, pack_u8, List.append_assoc, List.cons_append, List.nil_append]
    simp [List.getD, hmod]
  · rw [hL]
    have h4 : 4 ≤ (encode_frame f).2.length := by rw [hL]; unfold expected_len; omega
    rw [List.length_drop]
    omega

/-- C4 witness: the amended statement at a one-request frame
(length byte 8 = full frame size). -/
theorem encode_length_field_total_witness :
    (encode_frame ⟨0xAA55, 0, 0, 0, [], 0, [], 1, [42]⟩).1.length =
      min ((encode_frame ⟨0xAA55, 0, 0, 0, [], 0, [], 1, [42]⟩).2.length) 255 ∧
    (encode_frame ⟨0xAA55, 0, 0, 0, [], 0, [], 1, [42]⟩).2.getD 3 0 =
      min ((encode_frame ⟨0xAA55, 0, 0, 0, [], 0, [], 1, [42]⟩).2.length) 255 ∧
    (encode_frame ⟨0xAA55, 0, 0, 0, [], 0, [], 1, [42]⟩).2.length =
      ((encode_frame ⟨0xAA55, 0, 0, 0, [], 0, [], 1, [42]⟩).2.drop 4).length + 4 :=
  encode_length_field_total _ (by decide) (by decide) (by decide)

/-- C5 counterexample: a frame announcing one image target but truncated
30 bytes into the 58-byte record is *not* rejected — `decode_frame`
returns a frame with the image section cut short. -/
theorem decode_truncated_cx :
    decode_frame ([0xAA, 0x55, 0, 65, 1] ++ List.replicate 30 0) ≠ none ∧
    decode_frame ([0xAA, 0x55, 0, 65, 1] ++ List.replicate 30 0) =
      some ⟨0xAA55, 0, 65, 1, [], 0, [], 0, []⟩ := by decide

/-- C5 (amended) — `decode_frame` returns no frame exactly for input
shorter than 4 bytes or with a 16-bit big-endian header other than
`0xAA55`; a valid-header input truncated mid-record yields a partial
frame (the affected section cut short), not `none`. -/
theorem decode_none_iff (data : List Nat) :
    decode_frame data = none ↔
      data.length < 4 ∨ data.getD 0 0 * 256 + data.getD 1 0 ≠ 0xAA55 := by
  rcases data with _ | ⟨b0, _ | ⟨b1, _ | ⟨b2, _ | ⟨b3, rest⟩⟩⟩⟩
  · simp [decode_frame]
  · simp [decode_frame]
  · simp [decode_frame]
  · simp [decode_frame]
  · by_cases hh : b0 * 256 + b1 = 0xAA55
    · simp [decode_frame, u16, hh]
    · simp [decode_frame, u16, hh]

lemma decode_body_length_set (h t L L' : Nat) (r : List Nat) :
    decode_body h t L' r = { decode_body h t L r with length := L' } := by
  rcases r with _ | ⟨ni, r1⟩
  · rfl
  · rcases hpi : parse_image_targets ni r1 with ⟨imgs, r2⟩
    rcases r2 with _ | ⟨nr, r3⟩
    · simp [decode_body, hpi]
    · rcases hpr : parse_radar_targets nr r3 with ⟨rads, r4⟩
      rcases r4 with _ | ⟨nq, r5⟩
      · simp [decode_body, hpi, hpr]
      · simp [decode_body, hpi, hpr]

lemma decode_body_length (h t L : Nat) (r : List Nat) :
    (decode_body h t L r).length = L := by
  rw [decode_body_length_set h t 0 L r]

/-- C10 — two inputs of equal length with a valid header that differ only
at byte index 3 (the length field) decode to frames equal in every field
except the stored length field: the decoder never uses the length byte to
bound or alter the parsing of any section. -/
theorem decode_ignores_length_byte (b0 b1 b2 x y : Nat) (r : List Nat)
    (hheader : b0 * 256 + b1 = 0xAA55) :
    ∃ fr, decode_frame (b0 :: b1 :: b2 :: x :: r) = some fr ∧
      decode_frame (b0 :: b1 :: b2 :: y :: r) =
        some { fr with length := y } ∧
      fr.length = x := by
  have hu : u16 b0 b1 = 0xAA55 := hheader
  refine ⟨decode_body 0xAA55 b2 x r, decode_frame_cons _ _ _ _ _ hu, ?_, ?_⟩
  · rw [decode_frame_cons _ _ _ _ _ hu, decode_body_length_set 0xAA55 b2 x y r]
  · exact decode_body_length _ _ _ _

/-- C10 witness: the two decodes at a concrete 5-byte input pair
differing only in the length byte. -/
theorem decode_ignores_length_byte_witness :
    ∃ fr, decode_frame [0xAA, 0x55, 7, 9, 0] = some fr ∧
      decode_frame [0xAA, 0x55, 7, 200, 0] = some { fr with length := 200 } ∧
      fr.length = 9 :=
  decode_ignores_length_byte 0xAA 0x55 7 9 200 [0] (by norm_num)

end RadarCore

namespace RadarSim

/-- `ImageTarget` of `radar_simulation.py`; float fields as exact `ℚ`. -/
structure ImageTarget where
  id : Nat
  type : Nat
  distance_m : ℚ
  azimuth_deg : ℚ
  frequency_hz : ℚ
  distance_30ms_m : ℚ
  azimuth_30ms_deg : ℚ
  speed_m_s : ℚ
  direction_deg : ℚ
deriving DecidableEq, Repr

/-- `RadarTarget` of `radar_simulation.py`. -/
structure RadarTarget where
  id : Nat
  distance_m : ℚ
  azimuth_deg : ℚ
  rcs_db : ℚ
  velocity_m_s : ℚ
deriving DecidableEq, Repr

/-- `Track` of `radar_simulation.py`. -/
structure Track where
  id : Nat
  distance_m : ℚ
  azimuth_deg : ℚ
  speed_m_s : ℚ
  last_update : ℚ
  source : String := "fused"
  rcs_db : Option ℚ := none
  threat_score : ℚ := 0
deriving DecidableEq, Repr

/-- The track table `self.tracks : Dict[int, Track]`, modelled as an
insertion-ordered association list (Python dicts preserve insertion
order; updating an existing key keeps its position). -/
abbrev Tracks := List (Nat × Track)

/-- `self.tracks[i]` lookup (`i in self.tracks` iff `some`). -/
def lookupTrack (ts : Tracks) (i : Nat) : Option Track :=
  (ts.find? (fun p => p.1 == i)).map Prod.snd

/-- `self.tracks[i] = t`: replace in place when the key exists, append
otherwise — Python dict assignment semantics. -/
def setTrack : Tracks → Nat → Track → Tracks
  | [], i, t => [(i, t)]
  | p :: ps, i, t => if p.1 = i then (i, t) :: ps else p :: setTrack ps i t

/-- `radar_by_id = {r.id: r for r in radar_targets}` followed by
`.get(i)`: the *last* target with a given id wins, as in a Python dict
comprehension. -/
def radar_by_id (rts : List RadarTarget) (i : Nat) : Option RadarTarget :=
  rts.foldl (fun acc r => if r.id = i then some r else acc) none

/-- Python `x % 360.0` for azimuths (same as `RadarCore.fmod`). -/
def fmod360 (x : ℚ) : ℚ := x - 360 * ⌊x / 360⌋

/-- The image-target loop of `fuse_and_track` (state: track table and
`updated_ids`, the latter as a list used for membership only). -/
def image_loop_step (timestamp : ℚ) (rts : List RadarTarget)
    (st : Tracks × List Nat) (it : ImageTarget) : Tracks × List Nat :=
  match lookupTrack st.1 it.id with
  | some t =>
    let alpha : ℚ := 3 / 5
    let t' : Track :=
      { t with
        distance_m := alpha * it.distance_m + (1 - alpha) * t.distance_m
        azimuth_deg := fmod360 (alpha * it.azimuth_deg + (1 - alpha) * t.azimuth_deg)
        speed_m_s := alpha * it.speed_m_s + (1 - alpha) * t.speed_m_s
        last_update := timestamp
        source := "image" }
    (setTrack st.1 it.id t', it.id :: st.2)
  | none =>
    let r := radar_by_id rts it.id
    let t : Track :=
      { id := it.id, distance_m := it.distance_m, azimuth_deg := it.azimuth_deg,
        speed_m_s := it.speed_m_s, last_update := timestamp, source := "image",
        rcs_db := r.map (fun x => x.rcs_db) }
    (setTrack st.1 it.id t, it.id :: st.2)

/-- The radar-target loop of `fuse_and_track`.  The existing-track branch
blends the azimuth by vector averaging (`cos`/`sin`/`atan2` with
α = 0.6); that trigonometric computation is kept abstract as the
parameter `vblend old new`, since no claim depends on its value. -/
def radar_loop_step (vblend : ℚ → ℚ → ℚ) (timestamp : ℚ)
    (st : Tracks × List Nat) (rt : RadarTarget) : Tracks × List Nat :=
  match lookupTrack st.1 rt.id with
  | some t =>
    let alpha : ℚ := 3 / 5
    let t' : Track :=
      { t with
        distance_m := alpha * rt.distance_m + (1 - alpha) * t.distance_m
        azimuth_deg := vblend t.azimuth_deg rt.azimuth_deg
        speed_m_s := alpha * rt.velocity_m_s + (1 - alpha) * t.speed_m_s
        rcs_db := some rt.rcs_db
        last_update := timestamp
        source := "radar" }
    (setTrack st.1 rt.id t', rt.id :: st.2)
  | none =>
    let t : Track :=
      { id := rt.id, distance_m := rt.distance_m, azimuth_deg := rt.azimuth_deg,
        speed_m_s := rt.velocity_m_s, last_update := timestamp, source := "radar",
        rcs_db := some rt.rcs_db }
    (setTrack st.1 rt.id t, rt.id :: st.2)

/-- The association score of the merge loop: normalised distance
difference plus circular azimuth difference over 180°. -/
def assoc_score (it : ImageTarget) (rt : RadarTarget) : ℚ :=
  |it.distance_m - rt.distance_m| / max 1 ((it.distance_m + rt.distance_m) / 2) +
  min |it.azimuth_deg - rt.azimuth_deg| (360 - |it.azimuth_deg - rt.azimuth_deg|) / 180

/-- The best-match scan of the merge loop: first strictly smaller score
wins, as in the Python `if best_score is None or score < best_score`. -/
def best_match (it : ImageTarget) (rts : List RadarTarget) :
    Option (RadarTarget × ℚ) :=
  rts.foldl
    (fun acc rt =>
      match acc with
      | none => some (rt, assoc_score it rt)
      | some (_, bs) =>
        if assoc_score it rt < bs then some (rt, assoc_score it rt) else acc)
    none

/-- The `merge close image->radar targets` loop of `fuse_and_track`. -/
def merge_loop_step (timestamp : ℚ) (rts : List RadarTarget)
    (st : Tracks × List Nat) (it : ImageTarget) : Tracks × List Nat :=
  if it.id ∈ st.2 then st
  else
    match best_match it rts with
    | some (best, best_score) =>
      if best_score < 3 / 20 then
        match lookupTrack st.1 best.id with
        | some t =>
          let alpha : ℚ := 1 / 2
          let t' : Track :=
            { t with
              distance_m := alpha * it.distance_m + (1 - alpha) * t.distance_m
              azimuth_deg := fmod360 (alpha * it.azimuth_deg + (1 - alpha) * t.azimuth_deg)
              speed_m_s := alpha * it.speed_m_s + (1 - alpha) * t.speed_m_s
              last_update := timestamp
              source := "fused" }
          (setTrack st.1 best.id t', best.id :: st.2)
        | none =>
          let t : Track :=
            { id := best.id, distance_m := it.distance_m,
              azimuth_deg := it.azimuth_deg, speed_m_s := it.speed_m_s,
              last_update := timestamp, source := "fused",
              rcs_db := some best.rcs_db }
          (setTrack st.1 best.id t, best.id :: st.2)
      else
        let t : Track :=
          { id := it.id, distance_m := it.distance_m,
            azimuth_deg := it.azimuth_deg, speed_m_s := it.speed_m_s,
            last_update := timestamp, source := "image" }
        (setTrack st.1 it.id t, it.id :: st.2)
    | none =>
      let t : Track :=
        { id := it.id, distance_m := it.distance_m,
          azimuth_deg := it.azimuth_deg, speed_m_s := it.speed_m_s,
          last_update := timestamp, source := "image" }
      (setTrack st.1 it.id t, it.id :: st.2)

/-- The three update loops of `fuse_and_track` (before aging and
scoring), with `timestamp` the first `time.time()` reading. -/
def fuse_update_phase (vblend : ℚ → ℚ → ℚ) (tracks : Tracks)
    (image_targets : List ImageTarget) (radar_targets : List RadarTarget)
    (timestamp : ℚ) : Tracks × List Nat :=
  let st1 := image_targets.foldl (image_loop_step timestamp radar_targets) (tracks, [])
  let st2 := radar_targets.foldl (radar_loop_step vblend timestamp) st1
  image_targets.foldl (merge_loop_step timestamp radar_targets) st2

/-- The age-out step: tracks with `now - last_update > ttl = 5.0` are
deleted (`now` is the second `time.time()` reading). -/
def age_out (now : ℚ) (ts : Tracks) : Tracks :=
  ts.filter (fun p => decide (now - p.2.last_update ≤ 5))

/-- Threat scoring of one surviving track. -/
def score_track (mode : String) (t : Track) : Track :=
  let dist_score := max 0 (1 - t.distance_m / 50000)
  let speed_score := min 1 (|t.speed_m_s| / 400)
  let rcs_score : ℚ :=
    match t.rcs_db with
    | some r => (r + 20) / 40
    | none => 1 / 2
  let mode_factor : ℚ := if mode = "AirCombat" then 3 / 2 else 1
  let score := ((3 / 5) * dist_score + (3 / 10) * speed_score +
    (1 / 10) * rcs_score) * mode_factor
  { t with threat_score := max 0 (min (3 / 2) score) }

/-- `RadarSimulatorCore.fuse_and_track`, made pure: the track table is
passed in and the updated table returned (the Python method mutates
`self.tracks` and returns `list(self.tracks.values())`, i.e. the `snd`s
of this table).  `t1` and `t2` are the two `time.time()` readings — at
the start of the call and at the age-out step. -/
def fuse_and_track (vblend : ℚ → ℚ → ℚ) (mode : String) (tracks : Tracks)
    (image_targets : List ImageTarget) (radar_targets : List RadarTarget)
    (t1 t2 : ℚ) : Tracks :=
  let st := fuse_update_phase vblend tracks image_targets radar_targets t1
  (age_out t2 st.1).map (fun p => (p.1, score_track mode p.2))

/-- A fire-control response dictionary: `selected`/`distance_m`/
`azimuth_deg` are present only when a track was selected. -/
structure FCResponse where
  requested : Nat
  selected : Option Nat
  distance_m : Option ℚ
  azimuth_deg : Option ℚ
  status : String
deriving DecidableEq, Repr

/-- The response for one requested id (the loop body of
`handle_fire_control_request`): an existing track with status `"OK"`;
`"NO_TARGET"` on an empty table; otherwise the nearest track (Python's
`min(self.tracks.values(), key=...)`: the first track of minimal
distance in table order) with status `"FALLBACK"`. -/
def fc_response (tracks : Tracks) (rid : Nat) : FCResponse :=
  match lookupTrack tracks rid with
  | some t => ⟨rid, some t.id, some t.distance_m, some t.azimuth_deg, "OK"⟩
  | none =>
    match tracks with
    | [] => ⟨rid, none, none, none, "NO_TARGET"⟩
    | p :: ps =>
      let best := (ps.map Prod.snd).foldl
        (fun acc x => if x.distance_m < acc.distance_m then x else acc) p.2
      ⟨rid, some best.id, some best.distance_m, some best.azimuth_deg, "FALLBACK"⟩

/-- `RadarSimulatorCore.handle_fire_control_request`.  The Python method
only reads `self.tracks`; the embedding takes the table as input and
returns only the responses, so non-mutation holds by construction. -/
def handle_fire_control_request (tracks : Tracks) (requested_ids : List Nat) :
    List FCResponse :=
  requested_ids.map (fc_response tracks)

/-- C1 — the specification's fusion scenario evaluated on the code: one
radar target (id 201, distance 10000, azimuth 50) and one image target of
a different id (101, distance 10050, azimuth 50.2).  The association
score is below 0.15, yet the call leaves *two* tracks — an "image" track
keyed 101 and a "radar" track keyed 201 — because the first loop already
inserts every unmatched image target and marks its id updated, making the
merge loop unreachable, and the radar loop inserts the radar target
separately. -/
theorem fuse_and_track_two_tracks_not_fused :
    assoc_score ⟨101, 1, 10050, 251 / 5, 0, 0, 0, 100, 0⟩
        ⟨201, 10000, 50, 5, 100⟩ < 3 / 20 ∧
    (fuse_and_track (fun _ n => n) "Search" []
        [⟨101, 1, 10050, 251 / 5, 0, 0, 0, 100, 0⟩]
        [⟨201, 10000, 50, 5, 100⟩] 0 0).map (fun p => (p.1, p.2.source)) =
      [(101, "image"), (201, "radar")] := by
  constructor
  · norm_num [assoc_score, abs, max_def, min_def]
  · norm_num [fuse_and_track, fuse_update_phase, image_loop_step, radar_loop_step,
      merge_loop_step, lookupTrack, radar_by_id, setTrack, age_out, score_track,
      List.find?, List.filter]

/-- C2 counterexample: an existing track at azimuth 359° updated by an
image target of the same id at azimuth 1° ends at azimuth 144.2°, which
is not on the short arc across the 0°/360° boundary — the image branch
blends azimuths linearly, not by vector averaging. -/
theorem fuse_and_track_image_blend_cx :
    (fuse_and_track (fun _ n => n) "Search"
        [(150, ⟨150, 10000, 359, 100, 0, "image", none, 0⟩)]
        [⟨150, 1, 10000, 1, 0, 0, 0, 100, 0⟩] [] 0 0).map
        (fun p => p.2.azimuth_deg) = [721 / 5] ∧
    ¬((359 : ℚ) ≤ 721 / 5 ∨ (721 : ℚ) / 5 ≤ 1) := by
  constructor
  · norm_num [fuse_and_track, fuse_update_phase, image_loop_step, radar_loop_step,
      merge_loop_step, lookupTrack, radar_by_id, setTrack, age_out, score_track,
      List.find?, List.filter, fmod360]
  · norm_num

lemma age_out_nil (now : ℚ) : age_out now [] = [] := rfl

lemma age_out_keep (now : ℚ) (p : Nat × Track) (ts : Tracks)
    (h : now - p.2.last_update ≤ 5) :
    age_out now (p :: ts) = p :: age_out now ts := by
  simp [age_out, List.filter_cons]
  linarith

lemma age_out_drop (now : ℚ) (p : Nat × Track) (ts : Tracks)
    (h : ¬(now - p.2.last_update ≤ 5)) :
    age_out now (p :: ts) = age_out now ts := by
  simp [age_out, List.filter_cons]
  linarith [not_le.mp h]

/-- C2 (amended) — in `fuse_and_track`, an image target whose identifier
already has a track updates the track's azimuth by *linear* exponential
smoothing, `(0.6·sample + 0.4·old) mod 360` (vector averaging is applied
only in the radar-target branch); so blending 359° with 1° yields 144.2°,
drifting toward 180° instead of crossing the 0°/360° boundary. -/
theorem image_track_update_linear_blend (vblend : ℚ → ℚ → ℚ) (mode : String)
    (τ : ℚ) (t : Track) (it : ImageTarget) (hid : it.id = t.id) :
    (fuse_and_track vblend mode [(t.id, t)] [it] [] τ τ).map
        (fun p => p.2.azimuth_deg) =
      [fmod360 ((3 / 5) * it.azimuth_deg + (1 - 3 / 5) * t.azimuth_deg)] := by
  simp only [fuse_and_track, fuse_update_phase, List.foldl_cons, List.foldl_nil]
  simp only [image_loop_step, lookupTrack, List.find?, hid, beq_self_eq_true,
    Option.map_some']
  simp only [merge_loop_step, List.mem_cons, List.mem_singleton, hid,
    eq_self_iff_true, true_or, if_true, setTrack]
  rw [age_out_keep _ _ _ (by simp), age_out_nil]
  simp [score_track]

/-- C2 (amended) witness: the linear blend at the 359°/1° pair ends at
144.2°. -/
theorem image_track_update_linear_blend_witness :
    (fuse_and_track (fun _o n => n) "Search"
        [(150, ⟨150, 10000, 359, 100, 0, "image", none, 0⟩)]
        [⟨150, 1, 10000, 1, 0, 0, 0, 100, 0⟩] [] 0 0).map
        (fun p => p.2.azimuth_deg) =
      [fmod360 ((3 / 5) * 1 + (1 - 3 / 5) * 359)] :=
  image_track_update_linear_blend (fun _o n => n) "Search" 0
    ⟨150, 10000, 359, 100, 0, "image", none, 0⟩
    ⟨150, 1, 10000, 1, 0, 0, 0, 100, 0⟩ rfl

lemma score_track_last_update (mode : String) (t : Track) :
    (score_track mode t).last_update = t.last_update := rfl

/-- C6 — after a `fuse_and_track` call, every surviving track's
last-update time lies within 5.0 seconds of the aging clock reading `t2`
(tracks older than that are deleted), and every track of the update
phase whose last update is within 5.0 seconds survives into the
returned table (with its threat score recomputed). -/
theorem fuse_and_track_aging (vblend : ℚ → ℚ → ℚ) (mode : String)
    (tracks : Tracks) (its : List ImageTarget) (rts : List RadarTarget)
    (t1 t2 : ℚ) :
    (∀ p ∈ fuse_and_track vblend mode tracks its rts t1 t2,
        t2 - p.2.last_update ≤ 5) ∧
    (∀ p ∈ (fuse_update_phase vblend tracks its rts t1).1,
        t2 - p.2.last_update ≤ 5 →
        (p.1, score_track mode p.2) ∈
          fuse_and_track vblend mode tracks its rts t1 t2) := by
  constructor
  · intro p hp
    simp only [fuse_and_track, List.mem_map] at hp
    obtain ⟨q, hq, rfl⟩ := hp
    simp only [age_out, List.mem_filter, decide_eq_true_eq] at hq
    simpa [score_track_last_update] using hq.2
  · intro p hp hle
    simp only [fuse_and_track, List.mem_map]
    refine ⟨p, ?_, rfl⟩
    simp only [age_out, List.mem_filter, decide_eq_true_eq]
    exact ⟨hp, hle⟩

/-- C6 witness: with the clock at 14.9s, the track last updated at 10s
(4.9s ago) survives; the theorem's first half forces the one last
updated at 0s (14.9s ago) out. -/
theorem fuse_and_track_aging_witness :
    ((2 : Nat), score_track "Search" ⟨2, 1000, 0, 0, 10, "image", none, 0⟩) ∈
      fuse_and_track (fun _o n => n) "Search"
        [(1, ⟨1, 1000, 0, 0, 0, "image", none, 0⟩),
         (2, ⟨2, 1000, 0, 0, 10, "image", none, 0⟩)] [] [] (149 / 10) (149 / 10) :=
  (fuse_and_track_aging (fun _o n => n) "Search"
      [(1, ⟨1, 1000, 0, 0, 0, "image", none, 0⟩),
       (2, ⟨2, 1000, 0, 0, 10, "image", none, 0⟩)] [] [] (149 / 10) (149 / 10)).2
    (2, ⟨2, 1000, 0, 0, 10, "image", none, 0⟩)
    (List.mem_cons_of_mem _ (List.mem_cons_self _ _)) (by norm_num)

/-- C8 — after every `fuse_and_track` call, every surviving track's
threat score equals
`clamp(modeFactor · (0.6·max(0, 1 − d/50000) + 0.3·min(1, |v|/400)
 + 0.1·rcsTerm), 0, 1.5)` with `rcsTerm = (rcs+20)/40` when an RCS is
known and `0.5` otherwise, and `modeFactor = 1.5` exactly in the
air-combat mode. -/
theorem fuse_and_track_threat_score (vblend : ℚ → ℚ → ℚ) (mode : String)
    (tracks : Tracks) (its : List ImageTarget) (rts : List RadarTarget)
    (t1 t2 : ℚ) :
    ∀ p ∈ fuse_and_track vblend mode tracks its rts t1 t2,
      p.2.threat_score =
        max 0 (min (3 / 2)
          ((if mode = "AirCombat" then (3 / 2 : ℚ) else 1) *
           ((3 / 5) * max 0 (1 - p.2.distance_m / 50000) +
            (3 / 10) * min 1 (|p.2.speed_m_s| / 400) +
            (1 / 10) * (match p.2.rcs_db with
                        | some r => (r + 20) / 40
                        | none => (1 / 2 : ℚ))))) := by
  intro p hp
  simp only [fuse_and_track, List.mem_map] at hp
  obtain ⟨q, _, rfl⟩ := hp
  rcases q with ⟨i, t⟩
  rcases t with ⟨tid, d, az, sp, lu, src, rcs, th⟩
  cases rcs <;> simp [score_track, mul_comm]

/-- C8 witness: the threat-score formula instantiated on a surviving
track with a known RCS in a non-air-combat mode. -/
theorem fuse_and_track_threat_score_witness :
    ((5 : Nat), score_track "Search" ⟨5, 10000, 0, 100, 0, "radar", some 5, 0⟩).2.threat_score =
      max 0 (min (3 / 2)
        ((if ("Search" : String) = "AirCombat" then (3 / 2 : ℚ) else 1) *
         ((3 / 5) * max 0 (1 - 10000 / 50000) +
          (3 / 10) * min 1 (|(100 : ℚ)| / 400) +
          (1 / 10) * ((5 + 20) / 40)))) :=
  fuse_and_track_threat_score (fun _o n => n) "Search"
    [(5, ⟨5, 10000, 0, 100, 0, "radar", some 5, 0⟩)] [] [] 0 0
    (5, score_track "Search" ⟨5, 10000, 0, 100, 0, "radar", some 5, 0⟩)
    (by
      simp only [fuse_and_track, List.mem_map]
      refine ⟨(5, ⟨5, 10000, 0, 100, 0, "radar", some 5, 0⟩), ?_, rfl⟩
      simp only [fuse_update_phase, List.foldl_nil]
      rw [age_out_keep _ _ _ (by norm_num), age_out_nil]
      exact List.mem_cons_self _ _)

lemma foldl_min_distance_spec (l : List Track) (a : Track) :
    (l.foldl (fun acc x => if x.distance_m < acc.distance_m then x else acc) a = a ∨
     l.foldl (fun acc x => if x.distance_m < acc.distance_m then x else acc) a ∈ l) ∧
    (l.foldl (fun acc x => if x.distance_m < acc.distance_m then x else acc) a).distance_m ≤
      a.distance_m ∧
    ∀ u ∈ l,
      (l.foldl (fun acc x => if x.distance_m < acc.distance_m then x else acc) a).distance_m ≤
        u.distance_m := by
  induction l generalizing a with
  | nil => simp
  | cons x l ih =>
    simp only [List.foldl_cons, List.mem_cons]
    by_cases hx : x.distance_m < a.distance_m
    · rw [if_pos hx]
      obtain ⟨hmem, hle, hall⟩ := ih x
      refine ⟨?_, le_trans hle (le_of_lt hx), ?_⟩
      · rcases hmem with h | h
        · right; left; exact h
        · right; right; exact h
      · intro u hu
        rcases hu with rfl | hu
        · exact hle
        · exact hall u hu
    · rw [if_neg hx]
      obtain ⟨hmem, hle, hall⟩ := ih a
      refine ⟨?_, hle, ?_⟩
      · rcases hmem with h | h
        · left; exact h
        · right; right; exact h
      · intro u hu
        rcases hu with rfl | hu
        · exact le_trans hle (not_lt.mp hx)
        · exact hall u hu

/-- C7 — `handle_fire_control_request` returns exactly one response per
requested identifier: status `"OK"` carrying the identified track when a
track with that id exists; `"NO_TARGET"` when it does not and the table
is empty; `"FALLBACK"` carrying a track of globally minimal distance when
it does not but the table is non-empty.  The function never touches the
table (it consumes it read-only and returns only responses). -/
theorem handle_fire_control_request_spec (tracks : Tracks) (ids : List Nat) :
    (handle_fire_control_request tracks ids).length = ids.length ∧
    ∀ i (hi : i < ids.length)
      (hr : i < (handle_fire_control_request tracks ids).length),
      (∀ t, lookupTrack tracks (ids.get ⟨i, hi⟩) = some t →
        (handle_fire_control_request tracks ids).get ⟨i, hr⟩ =
          ⟨ids.get ⟨i, hi⟩, some t.id, some t.distance_m, some t.azimuth_deg,
            "OK"⟩) ∧
      (lookupTrack tracks (ids.get ⟨i, hi⟩) = none → tracks = [] →
        (handle_fire_control_request tracks ids).get ⟨i, hr⟩ =
          ⟨ids.get ⟨i, hi⟩, none, none, none, "NO_TARGET"⟩) ∧
      (lookupTrack tracks (ids.get ⟨i, hi⟩) = none → tracks ≠ [] →
        ∃ b, b ∈ tracks.map Prod.snd ∧
          (∀ u ∈ tracks.map Prod.snd, b.distance_m ≤ u.distance_m) ∧
          (handle_fire_control_request tracks ids).get ⟨i, hr⟩ =
            ⟨ids.get ⟨i, hi⟩, some b.id, some b.distance_m, some b.azimuth_deg,
              "FALLBACK"⟩) := by
  refine ⟨List.length_map ids _, ?_⟩
  intro i hi hr
  have hget : (handle_fire_control_request tracks ids).get ⟨i, hr⟩ =
      fc_response tracks (ids.get ⟨i, hi⟩) := by
    simp only [handle_fire_control_request, List.get_eq_getElem, List.getElem_map]
  set rid := ids.get ⟨i, hi⟩ with hrid
  refine ⟨?_, ?_, ?_⟩
  · intro t hlk
    rw [hget]
    simp only [fc_response, hlk]
  · intro hlk htE
    subst htE
    rw [hget]
    simp only [fc_response, hlk]
  · intro hlk hne
    rw [hget]
    rcases tracks with _ | ⟨p, ps⟩
    · exact absurd rfl hne
    · simp only [fc_response, hlk]
      obtain ⟨hmem, hle, hall⟩ := foldl_min_distance_spec (ps.map Prod.snd) p.2
      refine ⟨(ps.map Prod.snd).foldl
          (fun acc x => if x.distance_m < acc.distance_m then x else acc) p.2,
        ?_, ?_, rfl⟩
      · simp only [List.map_cons, List.mem_cons]
        rcases hmem with h | h
        · left; exact h
        · right; exact h
      · intro u hu
        simp only [List.map_cons, List.mem_cons] at hu
        rcases hu with rfl | hu
        · exact hle
        · exact hall u hu

/-- C7 witness: querying id 9 against a one-track table (id 7) falls back
to that track; the response count equals the request count. -/
theorem handle_fire_control_request_spec_witness :
    (handle_fire_control_request [(7, ⟨7, 1234, 10, 0, 0, "radar", none, 0⟩)]
        [9]).length = 1 ∧
    ∃ b, b ∈ [(7, (⟨7, 1234, 10, 0, 0, "radar", none, 0⟩ : Track))].map Prod.snd ∧
      (∀ u ∈ [(7, (⟨7, 1234, 10, 0, 0, "radar", none, 0⟩ : Track))].map Prod.snd,
        b.distance_m ≤ u.distance_m) ∧
      (handle_fire_control_request [(7, ⟨7, 1234, 10, 0, 0, "radar", none, 0⟩)]
          [9]).get ⟨0, by norm_num [handle_fire_control_request]⟩ =
        ⟨9, some b.id, some b.distance_m, some b.azimuth_deg, "FALLBACK"⟩ :=
  ⟨(handle_fire_control_request_spec
      [(7, ⟨7, 1234, 10, 0, 0, "radar", none, 0⟩)] [9]).1,
   (handle_fire_control_request_spec
      [(7, ⟨7, 1234, 10, 0, 0, "radar", none, 0⟩)] [9]).2 0 (by norm_num)
      (by norm_num [handle_fire_control_request]) |>.2.2
      (by simp [lookupTrack, List.find?]) (by simp)⟩

end RadarSim

namespace RadarCore

/-- `MotionTarget` of `radar_core.py`. -/
structure MotionTarget where
  id : Nat
  distance_m : ℚ
  azimuth_deg : ℚ
  radial_speed_m_s : ℚ
  angular_speed_deg_s : ℚ
  type : Nat
deriving DecidableEq, Repr

/-- `RadarSimulatorCore._init_motion_targets`: a fixed roster of
`max(max_image_targets, max_radar_targets)` targets with ids from 101.
The `random.choice` over the three target types is modelled by the
parameter `chooseType`. -/
def _init_motion_targets (motion_mode : String)
    (max_image_targets max_radar_targets : Nat) (chooseType : Nat → Nat) :
    List MotionTarget :=
  let count := max max_image_targets max_radar_targets
  if motion_mode = "circular" then
    (List.range count).map fun i =>
      ⟨101 + i, 20000, fmod ((i : ℚ) * (360 / (count : ℚ))) 360, 0,
        20 + ((i % 3 : Nat) : ℚ) * 10, chooseType i⟩
  else
    (List.range count).map fun i =>
      ⟨101 + i, 8000 + ((i % 6 : Nat) : ℚ) * 4000,
        fmod (30 + (i : ℚ) * (360 / (count : ℚ))) 360,
        150 + ((i % 4 : Nat) : ℚ) * 50,
        (if i % 2 = 0 then 1 else -1) * 5, chooseType i⟩

/-- The per-target body of `RadarSimulatorCore._step_motion`: advance the
distance, reflect at the [500, 50000] bounds (flipping the radial-speed
sign), wrap the azimuth modulo 360. -/
def step_one (mt : MotionTarget) (dt : ℚ) : MotionTarget :=
  let d := mt.distance_m + mt.radial_speed_m_s * dt
  let dv : ℚ × ℚ :=
    if d < 500 then (500, |mt.radial_speed_m_s|)
    else if d > 50000 then (50000, -|mt.radial_speed_m_s|)
    else (d, mt.radial_speed_m_s)
  { mt with
    distance_m := dv.1
    radial_speed_m_s := dv.2
    azimuth_deg := fmod (mt.azimuth_deg + mt.angular_speed_deg_s * dt) 360 }

/-- `RadarSimulatorCore._step_motion`: a no-op in `"random"` mode,
otherwise (re-initialising an empty roster first) one `step_one` per
target. -/
def _step_motion (motion_mode : String)
    (max_image_targets max_radar_targets : Nat) (chooseType : Nat → Nat)
    (targets : List MotionTarget) (dt : ℚ) : List MotionTarget :=
  if motion_mode = "random" then targets
  else
    let ts := if targets.isEmpty then
        _init_motion_targets motion_mode max_image_targets max_radar_targets
          chooseType
      else targets
    ts.map (fun mt => step_one mt dt)

/-- A roster after initialisation followed by one `_step_motion` per
elapsed-time entry of `dts` (each clamped tick delta). -/
def run_motion (motion_mode : String)
    (max_image_targets max_radar_targets : Nat) (chooseType : Nat → Nat)
    (dts : List ℚ) : List MotionTarget :=
  dts.foldl
    (_step_motion motion_mode max_image_targets max_radar_targets chooseType)
    (_init_motion_targets motion_mode max_image_targets max_radar_targets
      chooseType)

/-- The C9 bounds: distance within [500, 50000], azimuth in [0, 360). -/
def MotionWF (mt : MotionTarget) : Prop :=
  500 ≤ mt.distance_m ∧ mt.distance_m ≤ 50000 ∧
  0 ≤ mt.azimuth_deg ∧ mt.azimuth_deg < 360

lemma fmod_mul_fract (x m : ℚ) (hm : m ≠ 0) :
    fmod x m = m * Int.fract (x / m) := by
  unfold fmod Int.fract
  field_simp

lemma fmod_nonneg (x m : ℚ) (hm : 0 < m) : 0 ≤ fmod x m := by
  rw [fmod_mul_fract x m (ne_of_gt hm)]
  exact mul_nonneg (le_of_lt hm) (Int.fract_nonneg _)

lemma fmod_lt (x m : ℚ) (hm : 0 < m) : fmod x m < m := by
  rw [fmod_mul_fract x m (ne_of_gt hm)]
  nlinarith [Int.fract_lt_one (x / m)]

lemma step_one_wf (mt : MotionTarget) (dt : ℚ) : MotionWF (step_one mt dt) := by
  unfold step_one MotionWF
  refine ⟨?_, ?_, fmod_nonneg _ 360 (by norm_num), fmod_lt _ 360 (by norm_num)⟩ <;>
  · dsimp only
    split_ifs with h1 h2
    · norm_num
    · norm_num
    · push_neg at h1 h2
      dsimp only
      linarith

lemma init_motion_targets_wf (motion_mode : String) (mi mr : Nat)
    (chooseType : Nat → Nat) :
    ∀ mt ∈ _init_motion_targets motion_mode mi mr chooseType, MotionWF mt := by
  intro mt hmt
  unfold _init_motion_targets at hmt
  split_ifs at hmt
  · simp only [List.mem_map, List.mem_range] at hmt
    obtain ⟨i, _, rfl⟩ := hmt
    exact ⟨by norm_num, by norm_num,
      fmod_nonneg _ 360 (by norm_num), fmod_lt _ 360 (by norm_num)⟩
  · simp only [List.mem_map, List.mem_range] at hmt
    obtain ⟨i, _, rfl⟩ := hmt
    have h6 : ((i % 6 : Nat) : ℚ) ≤ 5 := by
      have : i % 6 < 6 := Nat.mod_lt _ (by norm_num)
      exact_mod_cast Nat.le_of_lt_succ this
    have h0 : (0 : ℚ) ≤ ((i % 6 : Nat) : ℚ) := Nat.cast_nonneg _
    exact ⟨by dsimp only; linarith, by dsimp only; linarith,
      fmod_nonneg _ 360 (by norm_num), fmod_lt _ 360 (by norm_num)⟩

lemma step_motion_wf (motion_mode : String) (mi mr : Nat)
    (chooseType : Nat → Nat) (targets : List MotionTarget) (dt : ℚ)
    (h : ∀ mt ∈ targets, MotionWF mt) :
    ∀ mt ∈ _step_motion motion_mode mi mr chooseType targets dt, MotionWF mt := by
  intro mt hmt
  unfold _step_motion at hmt
  split_ifs at hmt
  · exact h mt hmt
  all_goals
    simp only [List.mem_map] at hmt
    obtain ⟨u, _, rfl⟩ := hmt
    exact step_one_wf u dt

/-- C9 — in any motion mode, after initialisation and any sequence of
`_step_motion` ticks with per-step elapsed time in [0.01, 0.2], every
roster target keeps `500 ≤ distance ≤ 50000` and `0 ≤ azimuth < 360`;
a target crossing a distance bound has its radial-speed sign flipped
(positive at the lower bound, negative at the upper). -/
theorem motion_targets_bounds (motion_mode : String) (mi mr : Nat)
    (chooseType : Nat → Nat) (dts : List ℚ)
    (_hdt : ∀ dt ∈ dts, (1 : ℚ) / 100 ≤ dt ∧ dt ≤ 1 / 5) :
    (∀ mt ∈ run_motion motion_mode mi mr chooseType dts,
        500 ≤ mt.distance_m ∧ mt.distance_m ≤ 50000 ∧
        0 ≤ mt.azimuth_deg ∧ mt.azimuth_deg < 360) ∧
    (∀ (mt : MotionTarget) (dt : ℚ),
        mt.distance_m + mt.radial_speed_m_s * dt < 500 →
        (step_one mt dt).radial_speed_m_s = |mt.radial_speed_m_s|) ∧
    (∀ (mt : MotionTarget) (dt : ℚ),
        ¬(mt.distance_m + mt.radial_speed_m_s * dt < 500) →
        mt.distance_m + mt.radial_speed_m_s * dt > 50000 →
        (step_one mt dt).radial_speed_m_s = -|mt.radial_speed_m_s|) := by
  refine ⟨?_, ?_, ?_⟩
  · have haux : ∀ (ds : List ℚ) (init : List MotionTarget),
        (∀ mt ∈ init, MotionWF mt) →
        ∀ mt ∈ ds.foldl (_step_motion motion_mode mi mr chooseType) init,
          MotionWF mt := by
      intro ds
      induction ds with
      | nil => intro init h mt hmt; exact h mt hmt
      | cons d ds ih =>
        intro init h mt hmt
        exact ih _ (step_motion_wf motion_mode mi mr chooseType init d h) mt hmt
    exact haux dts _ (init_motion_targets_wf motion_mode mi mr chooseType)
  · intro mt dt h
    simp [step_one, if_pos h]
  · intro mt dt h1 h2
    simp [step_one, if_neg h1, if_pos h2]

/-- C9 witness: the bounds on the single "linear"-mode target after one
0.1-second step (distance 8015, azimuth 30.5°). -/
theorem motion_targets_bounds_witness :
    500 ≤ ((8015 : ℚ)) ∧ (8015 : ℚ) ≤ 50000 ∧
    (0 : ℚ) ≤ 61 / 2 ∧ (61 : ℚ) / 2 < 360 :=
  (motion_targets_bounds "linear" 1 1 (fun _ => 1) [1 / 10]
      (by intro dt hdt; rw [List.mem_singleton] at hdt; subst hdt; norm_num)).1
    ⟨101, 8015, 61 / 2, 150, 5, 1⟩
    (by
      have h1 : ¬("linear" = "circular") := by decide
      have h2 : ¬("linear" = "random") := by decide
      norm_num [run_motion, _init_motion_targets, _step_motion, step_one, fmod,
        List.range_succ, h1, h2])
end RadarCore
